import Mathlib

/-!
Shallow embedding of the original logic of the blog.romamik.com repository:
the content-collection helper `src/lib/blog.ts` (draft filtering, descending
date sort, formatted date), the content schema from the collection config,
and the theme controller `src/lib/theme.ts` (preference persistence,
`data-theme` application, system-preference watcher lifecycle).
-/

namespace Blog

/-- A calendar date (the `pubDate` field after `z.coerce.date()`). -/
structure Date where
  year : Nat
  month : Nat
  day : Nat
  deriving DecidableEq, Repr

/-- Embedding of `Date.prototype.getTime` used by the sort comparator in
`blog.ts`: any strictly monotone encoding of the calendar order works, since
the comparator only compares the two numbers.  Months are 1..12 and days
1..31, so the mixed-radix encoding below is strictly monotone in the
(year, month, day) lexicographic order, exactly like epoch milliseconds. -/
def Date.getTime (d : Date) : Nat :=
  (d.year * 13 + d.month) * 32 + d.day

/-- English month names, as produced by `toLocaleDateString("en-US", ...)`
with `month: "long"`. -/
def monthName : Nat → String
  | 1 => "January"
  | 2 => "February"
  | 3 => "March"
  | 4 => "April"
  | 5 => "May"
  | 6 => "June"
  | 7 => "July"
  | 8 => "August"
  | 9 => "September"
  | 10 => "October"
  | 11 => "November"
  | 12 => "December"
  | _ => ""

/-- Two-digit day rendering (`day: "2-digit"`). -/
def twoDigit (n : Nat) : String :=
  if n < 10 then "0" ++ toString n else toString n

/-- Embedding of
`pubDate.toLocaleDateString("en-US", \x7b year: "numeric", month: "long", day: "2-digit" \x7d)`
from `blog.ts`: long month name, two-digit day, comma, unpadded year. -/
def formatDate (d : Date) : String :=
  monthName d.month ++ " " ++ twoDigit d.day ++ ", " ++ toString d.year

/-- Raw frontmatter of one content file, before the collection schema applies
its defaults (`draft` and `tags` may be absent). -/
structure RawFrontmatter where
  title : String
  description : Option String
  pubDate : Date
  draft : Option Bool
  tags : Option (List String)
  deriving DecidableEq, Repr

/-- Entry data after the collection schema from the content config:
`draft: z.boolean().default(false)`, `tags: z.array(z.string()).default([])`. -/
structure EntryData where
  title : String
  description : Option String
  pubDate : Date
  draft : Bool
  tags : List String
  deriving DecidableEq, Repr

/-- The schema's default application for absent optional fields. -/
def applySchema (r : RawFrontmatter) : EntryData :=
  { title := r.title
    description := r.description
    pubDate := r.pubDate
    draft := r.draft.getD false
    tags := r.tags.getD [] }

/-- One collection entry as returned by `getCollection` (id/slug owned by the
content system). -/
structure Entry where
  id : String
  data : EntryData
  deriving DecidableEq, Repr

/-- One element of the list returned by `getPosts`: the entry spread together
with the derived `formattedDate` string. -/
structure BlogPost where
  id : String
  data : EntryData
  formattedDate : String
  deriving DecidableEq, Repr

/-- Insert an entry into a list sorted by publish date descending, keeping it
sorted.  `p` goes before the first element strictly older than it. -/
def insertDesc (p : Entry) : List Entry → List Entry
  | [] => [p]
  | q :: qs =>
    if q.data.pubDate.getTime < p.data.pubDate.getTime then p :: q :: qs
    else q :: insertDesc p qs

/-- Embedding of
`posts.sort((a, b) => b.data.pubDate.getTime() - a.data.pubDate.getTime())`:
a sort whose output is ordered by publish date descending (the comparator
orders `a` before `b` exactly when `b.getTime() <= a.getTime()`), realised as
an insertion sort. -/
def sortByDateDesc (l : List Entry) : List Entry :=
  l.foldr insertDesc []

/-- Embedding of `getCollection("blog", (\x7b data \x7d) => isDev || !data.draft)`:
the collection filtered by the predicate passed from `getPosts`. -/
def getCollection (isDev : Bool) (entries : List Entry) : List Entry :=
  entries.filter (fun e => isDev || !e.data.draft)

/-- Embedding of `getPosts` from `blog.ts`: filter by the draft rule, sort by
publish date descending, and attach the formatted date to each entry.
`isDev` is `import.meta.env.MODE === "development"`. -/
def getPosts (isDev : Bool) (entries : List Entry) : List BlogPost :=
  ((getCollection isDev entries).foldr insertDesc []).map
    (fun post => { id := post.id, data := post.data,
                   formattedDate := formatDate post.data.pubDate })

/-- The descending-date order on entries: `a` may precede `b` exactly when
`b`'s publish date is not after `a`'s. -/
def dateGe (a b : Entry) : Prop :=
  b.data.pubDate.getTime ≤ a.data.pubDate.getTime

theorem mem_insertDesc {a p : Entry} {l : List Entry} :
    a ∈ insertDesc p l ↔ a = p ∨ a ∈ l := by
  induction l with
  | nil => simp [insertDesc]
  | cons q qs ih =>
    by_cases h : q.data.pubDate.getTime < p.data.pubDate.getTime
    · simp [insertDesc, h]
    · simp [insertDesc, h, ih]
      tauto

theorem perm_insertDesc (p : Entry) (l : List Entry) :
    List.Perm (insertDesc p l) (p :: l) := by
  induction l with
  | nil => simp [insertDesc]
  | cons q qs ih =>
    by_cases h : q.data.pubDate.getTime < p.data.pubDate.getTime
    · simp [insertDesc, h]
    · simp only [insertDesc, h, if_neg, if_false]
      exact (ih.cons q).trans (List.Perm.swap p q qs)

theorem pairwise_insertDesc {p : Entry} {l : List Entry}
    (h : l.Pairwise dateGe) : (insertDesc p l).Pairwise dateGe := by
  induction l with
  | nil => simp [insertDesc, dateGe]
  | cons q qs ih =>
    rcases List.pairwise_cons.mp h with ⟨hq, hqs⟩
    by_cases hlt : q.data.pubDate.getTime < p.data.pubDate.getTime
    · simp only [insertDesc, hlt, if_pos]
      refine List.pairwise_cons.mpr ⟨?_, h⟩
      intro x hx
      rcases List.mem_cons.mp hx with rfl | hx
      · exact Nat.le_of_lt hlt
      · exact Nat.le_trans (hq x hx) (Nat.le_of_lt hlt)
    · simp only [insertDesc, hlt, if_neg, if_false]
      refine List.pairwise_cons.mpr ⟨?_, ih hqs⟩
      intro x hx
      rcases mem_insertDesc.mp hx with rfl | hx
      · exact Nat.le_of_not_lt hlt
      · exact hq x hx

theorem pairwise_sortByDateDesc (l : List Entry) :
    (sortByDateDesc l).Pairwise dateGe := by
  induction l with
  | nil => simp [sortByDateDesc]
  | cons p ps ih => exact pairwise_insertDesc ih

theorem perm_sortByDateDesc (l : List Entry) : List.Perm (sortByDateDesc l) l := by
  induction l with
  | nil => simp [sortByDateDesc]
  | cons p ps ih =>
    exact ((perm_insertDesc p (sortByDateDesc ps)).trans (ih.cons p))

/-! ## Theme controller (`src/lib/theme.ts`)

The controller's observable state: the persisted local-storage value under
the `theme` key, whether the module variable `autoWatcher` currently holds a
`MediaQueryList`, the number of `handleAutoChange` listeners currently
subscribed to OS color-scheme change events, and the `data-theme` attribute
of the document root (`none` while the attribute has never been set).
`handlers` is tracked separately from `autoWatcher` precisely so that the
at-most-one-subscription invariant is a statement, not an assumption. -/

structure ThemeState where
  storage : Option String
  autoWatcher : Bool
  handlers : Nat
  dataTheme : Option String
  deriving DecidableEq, Repr

/-- The attribute value written by `applyTheme`:
`mode === "light" ? "light" : "dark"`. -/
def applyThemeAttr (mode : String) : String :=
  if mode = "light" then "light" else "dark"

/-- Embedding of `applyTheme` from `theme.ts`:
`root.setAttribute("data-theme", mode === "light" ? "light" : "dark")`. -/
def applyTheme (mode : String) (s : ThemeState) : ThemeState :=
  { s with dataTheme := some (applyThemeAttr mode) }

/-- The unsubscribe block of `setTheme`: if `autoWatcher` is non-null,
remove the `handleAutoChange` listener and null the variable.
`removeEventListener` removes one matching registration if present. -/
def removeWatcher (s : ThemeState) : ThemeState :=
  if s.autoWatcher then { s with handlers := s.handlers - 1, autoWatcher := false }
  else s

/-- Embedding of `setTheme` from `theme.ts`.  `osDark` is the current value
of `window.matchMedia("(prefers-color-scheme: dark)").matches`.  Statement
order follows the source: persist, unsubscribe any previous watcher, then
either establish a new watcher (auto) or apply the theme directly. -/
def setTheme (theme : String) (osDark : Bool) (s : ThemeState) : ThemeState :=
  let s1 := { s with storage := some theme }
  let s2 := removeWatcher s1
  if theme = "auto" then
    let s3 := { s2 with autoWatcher := true }
    let s4 := applyTheme (if osDark then "dark" else "light") s3
    { s4 with handlers := s4.handlers + 1 }
  else
    applyTheme theme s2

/-- Embedding of `handleAutoChange`: `applyTheme(e.matches ? "dark" : "light")`. -/
def handleAutoChange (m : Bool) (s : ThemeState) : ThemeState :=
  applyTheme (if m then "dark" else "light") s

/-- An OS color-scheme change event: the browser fires `handleAutoChange`
once per currently subscribed listener, and does nothing when none is
subscribed. -/
def osChangeEvent (m : Bool) (s : ThemeState) : ThemeState :=
  (handleAutoChange m)^[s.handlers] s

/-- The events the controller reacts to after page load: a user clicking one
of the theme controls (which calls `setTheme`), or an OS color-scheme
preference change. -/
inductive Ev where
  | user (theme : String) (osDark : Bool)
  | osPref (m : Bool)
  deriving DecidableEq, Repr

def step (s : ThemeState) : Ev → ThemeState
  | .user t os => setTheme t os s
  | .osPref m => osChangeEvent m s

def runEvents (evs : List Ev) (s : ThemeState) : ThemeState :=
  evs.foldl step s

/-- The state at the top of the module on page load: whatever `theme` value
is persisted from earlier sessions, `autoWatcher = null`, no listener
subscribed, no `data-theme` attribute yet. -/
def initialState (stored : Option String) : ThemeState :=
  { storage := stored, autoWatcher := false, handlers := 0, dataTheme := none }

/-- Embedding of the initialization at the bottom of `theme.ts`:
`let theme = localStorage.getItem("theme") ?? "auto"; setTheme(theme);`. -/
def initTheme (osDark : Bool) (s : ThemeState) : ThemeState :=
  setTheme (s.storage.getD "auto") osDark s

/-- The watcher bookkeeping invariant: exactly one `handleAutoChange`
listener is subscribed while `autoWatcher` is non-null, none otherwise. -/
def WatcherInv (s : ThemeState) : Prop :=
  s.handlers = if s.autoWatcher then 1 else 0

theorem watcherInv_initialState (stored : Option String) :
    WatcherInv (initialState stored) := by
  simp [WatcherInv, initialState]

theorem watcherInv_setTheme (t : String) (os : Bool) {s : ThemeState}
    (h : WatcherInv s) : WatcherInv (setTheme t os s) := by
  unfold WatcherInv at h
  by_cases hw : s.autoWatcher <;>
    by_cases ht : t = "auto" <;>
      simp [WatcherInv, setTheme, removeWatcher, applyTheme, hw, ht, h]

theorem iterate_handleAutoChange_fields (m : Bool) (n : Nat) (s : ThemeState) :
    ((handleAutoChange m)^[n] s).storage = s.storage ∧
    ((handleAutoChange m)^[n] s).autoWatcher = s.autoWatcher ∧
    ((handleAutoChange m)^[n] s).handlers = s.handlers := by
  induction n with
  | zero => simp
  | succ k ih =>
    rw [Function.iterate_succ_apply']
    simpa [handleAutoChange, applyTheme] using ih

theorem osChangeEvent_fields (m : Bool) (s : ThemeState) :
    (osChangeEvent m s).storage = s.storage ∧
    (osChangeEvent m s).autoWatcher = s.autoWatcher ∧
    (osChangeEvent m s).handlers = s.handlers :=
  iterate_handleAutoChange_fields m s.handlers s

theorem watcherInv_osChangeEvent (m : Bool) {s : ThemeState}
    (h : WatcherInv s) : WatcherInv (osChangeEvent m s) := by
  obtain ⟨h1, h2, h3⟩ := osChangeEvent_fields m s
  unfold WatcherInv at h ⊢
  rw [h2, h3, h]

theorem watcherInv_step (e : Ev) {s : ThemeState} (h : WatcherInv s) :
    WatcherInv (step s e) := by
  cases e with
  | user t os => exact watcherInv_setTheme t os h
  | osPref m => exact watcherInv_osChangeEvent m h

theorem watcherInv_runEvents (evs : List Ev) {s : ThemeState}
    (h : WatcherInv s) : WatcherInv (runEvents evs s) := by
  induction evs generalizing s with
  | nil => exact h
  | cons e es ih => exact ih (watcherInv_step e h)

/-! ## Page-load DOM contract -/

/-- Modelled from the spec: the name of the companion class on the document
root that indicates "scripting enabled"; the layout markup that sets it and
the inline script that removes it are not among the two library files. -/
def scriptingEnabledClass : String := "scripting-enabled"

/-- The document root as the CSS collaborator sees it: the root's class list
together with the theme state. -/
structure RootDom where
  classes : List String
  theme : ThemeState
  deriving DecidableEq, Repr

/-- Modelled from the spec: page-load initialization removes the
"scripting enabled" companion class from the document root (consumed by a
CSS rule that hides content until the theme is resolved) and runs the theme
initialization from `theme.ts`.  `classList.remove` drops every occurrence
of the token. -/
def initPageLoad (osDark : Bool) (d : RootDom) : RootDom :=
  { classes := d.classes.filter (fun c => c != scriptingEnabledClass)
    theme := initTheme osDark d.theme }

/-! ## Storage failure semantics

`theme.ts` contains no `try`/`catch`.  Browsers raise an exception when
local storage is unavailable (for example a `SecurityError` when storage
access is denied), so the two storage touch points are embedded as fallible
steps and the rest of each operation is sequenced after them. -/

/-- A storage write, `localStorage.setItem("theme", v)`: throws when storage
is unavailable. -/
def setItemE (storageOk : Bool) (v : String) (s : ThemeState) :
    Except String ThemeState :=
  if storageOk then Except.ok { s with storage := some v }
  else Except.error "SecurityError: localStorage unavailable"

/-- A storage read, `localStorage.getItem("theme")`: throws when storage is
unavailable. -/
def getItemE (storageOk : Bool) (s : ThemeState) :
    Except String (Option String) :=
  if storageOk then Except.ok s.storage
  else Except.error "SecurityError: localStorage unavailable"

/-- Embedding of `setTheme` with the storage write's possible exception made
explicit: the write is the first statement of the function and nothing
catches its exception, so a storage failure aborts the call before any
watcher bookkeeping or theme application runs. -/
def setThemeE (storageOk : Bool) (theme : String) (osDark : Bool)
    (s : ThemeState) : Except String ThemeState := do
  let s1 ← setItemE storageOk theme s
  let s2 := removeWatcher s1
  if theme = "auto" then
    let s3 := { s2 with autoWatcher := true }
    let s4 := applyTheme (if osDark then "dark" else "light") s3
    return { s4 with handlers := s4.handlers + 1 }
  else
    return applyTheme theme s2

/-- The theme ids wired to controls by the loop at the bottom of `theme.ts`
(`theme-dark`, `theme-light`, `theme-auto`); the page template provides
exactly these three controls. -/
def knownThemes : List String := ["dark", "light", "auto"]

/-- Embedding of the module initialization with exceptions explicit:
`localStorage.getItem` may throw; then `setTheme(theme)` runs (and may
throw); then `(document.getElementById(...) as HTMLInputElement).checked =
true` throws a `TypeError` when no control with the persisted theme's id
exists, i.e. when the persisted value is not one of the three wired themes. -/
def initThemeE (storageOk : Bool) (osDark : Bool) (s : ThemeState) :
    Except String ThemeState := do
  let stored ← getItemE storageOk s
  let theme := stored.getD "auto"
  let s1 ← setThemeE storageOk theme osDark s
  if theme ∈ knownThemes then return s1
  else Except.error "TypeError: cannot set checked of null"

/-! ## Concrete fixtures used by witnesses -/

/-- A non-draft entry with publish date 2025-08-30. -/
def entryAug : Entry :=
  { id := "first-post"
    data := { title := "First post", description := none,
              pubDate := ⟨2025, 8, 30⟩, draft := false, tags := [] } }

/-- The `getPosts` output element for `entryAug`. -/
def postAug : BlogPost :=
  { id := "first-post", data := entryAug.data,
    formattedDate := "August 30, 2025" }

/-! ## Claims -/

/-- C1: for every content collection, `getPosts` in production mode returns
no entry whose draft flag is true and returns (as a permutation, with the
formatted date attached) exactly the entries whose draft flag is false;
in development mode it returns every entry; and the schema defaults an
absent draft flag to false, so such entries are included in production. -/
theorem getPosts_draft_filtering :
    (∀ entries : List Entry,
      ((getPosts false entries).all (fun p => !p.data.draft)) = true
      ∧ List.Perm ((getPosts false entries).map (fun p => (p.id, p.data)))
          ((entries.filter (fun e => !e.data.draft)).map (fun e => (e.id, e.data)))
      ∧ List.Perm ((getPosts true entries).map (fun p => (p.id, p.data)))
          (entries.map (fun e => (e.id, e.data))))
    ∧ (∀ (t : String) (d : Option String) (pd : Date) (tg : Option (List String)),
        (applySchema ⟨t, d, pd, none, tg⟩).draft = false) := by
  constructor
  · intro entries
    refine ⟨?_, ?_, ?_⟩
    · rw [List.all_eq_true]
      intro p hp
      simp only [getPosts, List.mem_map] at hp
      obtain ⟨e, he, rfl⟩ := hp
      have hmem : e ∈ getCollection false entries :=
        (perm_sortByDateDesc (getCollection false entries)).mem_iff.mp he
      simp only [getCollection, List.mem_filter, Bool.false_or] at hmem
      simpa using hmem.2
    · have h1 : List.Perm
          ((sortByDateDesc (getCollection false entries)).map (fun e => (e.id, e.data)))
          ((getCollection false entries).map (fun e => (e.id, e.data))) :=
        (perm_sortByDateDesc (getCollection false entries)).map _
      have h2 : getCollection false entries
          = entries.filter (fun e => !e.data.draft) := by
        simp [getCollection]
      simpa [getPosts, List.map_map, h2] using h1
    · have h1 : List.Perm
          ((sortByDateDesc (getCollection true entries)).map (fun e => (e.id, e.data)))
          ((getCollection true entries).map (fun e => (e.id, e.data))) :=
        (perm_sortByDateDesc (getCollection true entries)).map _
      have h2 : getCollection true entries = entries := by
        simp [getCollection]
      simpa [getPosts, List.map_map, h2] using h1
  · intro t d pd tg
    simp [applySchema]

/-- C3: for every environment flag and content collection, the output of
`getPosts` is ordered by publish date descending: whenever one returned
entry precedes another, the later one's publish date is less than or equal
to the earlier one's (in particular this holds for adjacent pairs). -/
theorem getPosts_sorted_desc (isDev : Bool) (entries : List Entry) :
    (getPosts isDev entries).Pairwise
      (fun a b => b.data.pubDate.getTime ≤ a.data.pubDate.getTime) := by
  unfold getPosts
  exact List.pairwise_map.mpr (pairwise_sortByDateDesc (getCollection isDev entries))

/-- C8: every entry returned by `getPosts` carries as `formattedDate` its
publish date rendered in the fixed en-US long format (full month name,
two-digit day, four-digit year), and a publish date of 2025-08-30 renders
as "August 30, 2025". -/
theorem getPosts_formattedDate :
    (∀ (isDev : Bool) (entries : List Entry) (p : BlogPost),
        p ∈ getPosts isDev entries → p.formattedDate = formatDate p.data.pubDate)
    ∧ formatDate ⟨2025, 8, 30⟩ = "August 30, 2025" := by
  constructor
  · intro isDev entries p hp
    simp only [getPosts, List.mem_map] at hp
    obtain ⟨e, _, rfl⟩ := hp
    rfl
  · rfl

/-- Witness for C8 at a concrete collection: `postAug` is in the output for
the singleton collection `[entryAug]` and its formatted date is the en-US
rendering of its publish date. -/
theorem getPosts_formattedDate_witness :
    postAug ∈ getPosts true [entryAug] ∧
      postAug.formattedDate = formatDate postAug.data.pubDate :=
  ⟨by decide, getPosts_formattedDate.1 true [entryAug] postAug (by decide)⟩

/-- C10: for every argument, `applyTheme` writes a `data-theme` value in
the set containing "light" and "dark"; it writes "light" exactly when the
argument is "light" and "dark" for every other argument, so a corrupted
persisted preference still yields a valid attribute value. -/
theorem applyTheme_valid_attr (mode : String) (s : ThemeState) :
    ((applyTheme mode s).dataTheme = some "light"
      ∨ (applyTheme mode s).dataTheme = some "dark")
    ∧ ((applyTheme mode s).dataTheme = some "light" ↔ mode = "light")
    ∧ (applyTheme mode s).dataTheme
        = some (if mode = "light" then "light" else "dark") := by
  by_cases h : mode = "light" <;> simp [applyTheme, applyThemeAttr, h]

theorem setTheme_nonauto_handlers {t : String} (ht : t ≠ "auto") (os : Bool)
    {s : ThemeState} (h : WatcherInv s) : (setTheme t os s).handlers = 0 := by
  unfold WatcherInv at h
  by_cases hw : s.autoWatcher <;>
    simp [setTheme, removeWatcher, applyTheme, ht, hw, h]

/-- C2: starting from a fresh page load with any persisted value, after any
finite sequence of user theme selections and OS preference events, at most
one `handleAutoChange` subscription is active; and selecting "light" or
"dark" in any reachable state leaves zero subscriptions, so repeated
auto/light/auto transitions never leave duplicate OS-change handlers. -/
theorem setTheme_at_most_one_watcher (stored : Option String) (evs : List Ev) :
    (runEvents evs (initialState stored)).handlers ≤ 1
    ∧ (∀ os : Bool,
        (setTheme "light" os (runEvents evs (initialState stored))).handlers = 0
        ∧ (setTheme "dark" os (runEvents evs (initialState stored))).handlers = 0) := by
  have hinv := watcherInv_runEvents evs (watcherInv_initialState stored)
  refine ⟨?_, fun os => ⟨?_, ?_⟩⟩
  · unfold WatcherInv at hinv
    rw [hinv]
    by_cases hw : (runEvents evs (initialState stored)).autoWatcher <;> simp [hw]
  · exact setTheme_nonauto_handlers (by decide) os hinv
  · exact setTheme_nonauto_handlers (by decide) os hinv

/-- C4: an OS color-scheme change event updates `data-theme` to the new OS
preference exactly when a watcher is subscribed (the preference is auto):
with the watcher subscribed the attribute becomes the event's preference;
with no watcher subscribed the event changes nothing; and from any state,
after selecting auto under a dark OS preference (state Auto-Dark), a
dark-to-light OS event sets `data-theme` to "light" with no other call. -/
theorem osChange_updates_iff_auto (m : Bool) {s : ThemeState}
    (h : WatcherInv s) :
    (s.autoWatcher = true →
      (osChangeEvent m s).dataTheme = some (if m then "dark" else "light"))
    ∧ (s.autoWatcher = false → osChangeEvent m s = s)
    ∧ ((osChangeEvent false (setTheme "auto" true s)).dataTheme = some "light") := by
  unfold WatcherInv at h
  refine ⟨?_, ?_, ?_⟩
  · intro hw
    rw [hw] at h
    simp at h
    unfold osChangeEvent
    rw [h]
    cases m <;>
      simp [handleAutoChange, applyTheme, applyThemeAttr]
  · intro hw
    rw [hw] at h
    simp at h
    unfold osChangeEvent
    rw [h]
    rfl
  · have hw : (setTheme "auto" true s).autoWatcher = true := by
      by_cases hb : s.autoWatcher <;>
        simp [setTheme, removeWatcher, applyTheme, hb]
    have hinv' : WatcherInv (setTheme "auto" true s) :=
      watcherInv_setTheme "auto" true h
    unfold WatcherInv at hinv'
    rw [hw] at hinv'
    simp at hinv'
    unfold osChangeEvent
    rw [hinv']
    simp [handleAutoChange, applyTheme, applyThemeAttr]

/-- Witness for C4 at a concrete state: from a fresh load, selecting auto
with the OS preferring dark and then firing a dark-to-light OS event leaves
`data-theme` equal to "light". -/
theorem osChange_updates_iff_auto_witness :
    WatcherInv (initialState none) ∧
      (osChangeEvent false (setTheme "auto" true (initialState none))).dataTheme
        = some "light" :=
  ⟨by simp [WatcherInv, initialState],
   (osChange_updates_iff_auto false (s := initialState none)
      (by simp [WatcherInv, initialState])).2.2⟩

/-- C7: when no preference is persisted, initialization reads the default
"auto" and behaves as auto: it persists "auto", subscribes the watcher, and
sets `data-theme` to the current OS color-scheme preference. -/
theorem setTheme_auto_fields (os : Bool) (s : ThemeState) :
    (setTheme "auto" os s).dataTheme = some (if os then "dark" else "light")
    ∧ (setTheme "auto" os s).autoWatcher = true
    ∧ (setTheme "auto" os s).storage = some "auto" := by
  by_cases hb : s.autoWatcher
  · cases os <;> simp [setTheme, removeWatcher, applyTheme, applyThemeAttr, hb]
  · cases os <;> simp [setTheme, removeWatcher, applyTheme, applyThemeAttr, hb]

theorem initTheme_default_auto (os : Bool) {s : ThemeState}
    (h : s.storage = none) :
    (initTheme os s).dataTheme = some (if os then "dark" else "light")
    ∧ (initTheme os s).autoWatcher = true
    ∧ (initTheme os s).storage = some "auto" := by
  unfold initTheme
  rw [h]
  exact setTheme_auto_fields os s

/-- Witness for C7: on a fresh load with nothing persisted and the OS
preferring dark, initialization yields `data-theme = "dark"`. -/
theorem initTheme_default_auto_witness :
    (initialState none).storage = none ∧
      (initTheme true (initialState none)).dataTheme = some "dark" :=
  ⟨rfl, (initTheme_default_auto true (s := initialState none) rfl).1⟩

/-- C9: `setTheme` is idempotent for every argument — calling it twice with
the same preference and OS state equals calling it once — and in particular
after calling it twice with "dark" the attribute is "dark", the persisted
preference is "dark", the watcher variable is null, and (from any state
satisfying the watcher invariant) zero subscriptions remain. -/
theorem setTheme_idempotent (os : Bool) (s : ThemeState) :
    (∀ t : String, setTheme t os (setTheme t os s) = setTheme t os s)
    ∧ (setTheme "dark" os (setTheme "dark" os s)).dataTheme = some "dark"
    ∧ (setTheme "dark" os (setTheme "dark" os s)).storage = some "dark"
    ∧ (setTheme "dark" os (setTheme "dark" os s)).autoWatcher = false
    ∧ (WatcherInv s →
        (setTheme "dark" os (setTheme "dark" os s)).handlers = 0) := by
  refine ⟨?_, ?_, ?_, ?_, ?_⟩
  · intro t
    by_cases ht : t = "auto"
    · subst ht
      by_cases hb : s.autoWatcher <;>
        simp [setTheme, removeWatcher, applyTheme, hb]
    · by_cases hb : s.autoWatcher <;>
        simp [setTheme, removeWatcher, applyTheme, ht, hb]
  · by_cases hb : s.autoWatcher <;>
      simp [setTheme, removeWatcher, applyTheme, applyThemeAttr, hb]
  · by_cases hb : s.autoWatcher <;>
      simp [setTheme, removeWatcher, applyTheme, hb]
  · by_cases hb : s.autoWatcher <;>
      simp [setTheme, removeWatcher, applyTheme, hb]
  · intro h
    exact setTheme_nonauto_handlers (by decide) os
      (watcherInv_setTheme "dark" os h)

/-- Witness for C9: from a fresh page load, calling the dark preference
twice leaves zero active subscriptions. -/
theorem setTheme_idempotent_witness :
    WatcherInv (initialState none) ∧
      (setTheme "dark" true (setTheme "dark" true (initialState none))).handlers = 0 :=
  ⟨by simp [WatcherInv, initialState],
   (setTheme_idempotent true (initialState none)).2.2.2.2
      (by simp [WatcherInv, initialState])⟩

/-- C6: after page-load initialization, the companion "scripting enabled"
class is no longer present on the document root, whatever classes the root
carried before. -/
theorem initPageLoad_removes_scripting_class (os : Bool) (d : RootDom) :
    scriptingEnabledClass ∉ (initPageLoad os d).classes := by
  simp [initPageLoad]

/-- C5 counterexample: with storage unavailable, `setTheme("dark")` on a
fresh page load does not fail silently — the uncaught storage exception
aborts the call, so the theme is never applied, refuting both that the
preference "merely fails to persist" and that no operation throws. -/
theorem setTheme_storage_failure_throws :
    setThemeE false "dark" false (initialState none)
      = Except.error "SecurityError: localStorage unavailable" := rfl

/-- C5 amended: `setTheme` catches nothing — when the storage write throws,
the exception propagates out of the call and the theme is not applied; when
storage is available, `setTheme` never throws (it behaves exactly as the
pure transition); initialization propagates a storage read failure; and
with storage available, initialization completes without throwing provided
the persisted value is absent or one of the three wired preferences. -/
theorem setTheme_storage_failure_propagates (t : String) (os : Bool)
    (s : ThemeState) :
    setThemeE false t os s
        = Except.error "SecurityError: localStorage unavailable"
    ∧ setThemeE true t os s = Except.ok (setTheme t os s)
    ∧ initThemeE false os s
        = Except.error "SecurityError: localStorage unavailable"
    ∧ (s.storage = none ∨ s.storage = some "dark" ∨ s.storage = some "light"
        ∨ s.storage = some "auto" →
        initThemeE true os s
          = Except.ok (setTheme (s.storage.getD "auto") os s)) := by
  have hok : setThemeE true t os s = Except.ok (setTheme t os s) := by
    by_cases ht : t = "auto" <;>
      simp [setThemeE, setItemE, setTheme, ht, Bind.bind, Except.bind, Pure.pure, Except.pure]
  refine ⟨?_, hok, ?_, ?_⟩
  · simp [setThemeE, setItemE, Bind.bind, Except.bind, Pure.pure, Except.pure]
  · simp [initThemeE, getItemE, Bind.bind, Except.bind, Pure.pure, Except.pure]
  · intro hstored
    have hok' : ∀ u : String, setThemeE true u os s = Except.ok (setTheme u os s) := by
      intro u
      by_cases hu : u = "auto" <;>
        simp [setThemeE, setItemE, setTheme, hu, Bind.bind, Except.bind, Pure.pure, Except.pure]
    rcases hstored with h | h | h | h <;>
      simp [initThemeE, getItemE, knownThemes, h, hok', Bind.bind, Except.bind, Pure.pure, Except.pure]

/-- Witness for C5 amended, at a fresh load with "dark" persisted and
storage working: initialization completes without an exception. -/
theorem setTheme_storage_failure_propagates_witness :
    ((initialState (some "dark")).storage = none
      ∨ (initialState (some "dark")).storage = some "dark"
      ∨ (initialState (some "dark")).storage = some "light"
      ∨ (initialState (some "dark")).storage = some "auto")
    ∧ initThemeE true false (initialState (some "dark"))
        = Except.ok (setTheme ((initialState (some "dark")).storage.getD "auto")
            false (initialState (some "dark"))) :=
  ⟨by simp [initialState],
   (setTheme_storage_failure_propagates "dark" false
      (initialState (some "dark"))).2.2.2 (by simp [initialState])⟩

end Blog
